import Mathlib

/-!
Shallow embedding of `src/components/World/Environment.tsx` (StarField,
LaneGuides, RetroSun, MovingGrid). JavaScript / GLSL numbers are modelled
as rationals wherever the code is rational, and as reals for the sine-based
sun animation. GLSL `mod` is floored modulus; the JavaScript `%` operator
is the truncated remainder.
-/

namespace Environment

/-- GLSL `mod(x, y) = x - y * floor(x / y)`. -/
def glslMod (x y : ℚ) : ℚ := x - y * ⌊x / y⌋

/-- Truncated (toward-zero) quotient, as used by the JavaScript `%` operator. -/
def truncDiv (x y : ℚ) : ℤ := if 0 ≤ x / y then ⌊x / y⌋ else ⌈x / y⌉

/-- JavaScript remainder `x % y = x - y * trunc(x / y)`. -/
def jsMod (x y : ℚ) : ℚ := x - y * truncDiv x y

/-- A three-component vector of rationals, standing for a GLSL `vec3`. -/
structure Vec3 where
  x : ℚ
  y : ℚ
  z : ℚ
deriving DecidableEq

/-! ## StarField -/

/-- Number of star particles (`const count = 4000`). -/
def starCount : ℕ := 4000

/-- Initial position of one star particle from its three uniform draws in
`[0,1)`:
`pos[i*3] = (Math.random() - 0.5) * 600`,
`pos[i*3+1] = (Math.random() - 0.5) * 400`,
`pos[i*3+2] = -Math.random() * 600`. -/
def starInitialPosition (r1 r2 r3 : ℚ) : Vec3 :=
  { x := (r1 - 0.5) * 600
    y := (r2 - 0.5) * 400
    z := -r3 * 600 }

/-- Per-particle size jitter: `r[i] = Math.random()`. -/
def starJitter (r : ℚ) : ℚ := r

/-- Effective speed uniform passed to the star shader each frame:
`uSpeed = speed > 0 ? speed : 5.0`. -/
def starFieldEffectiveSpeed (speed : ℚ) : ℚ :=
  if speed > 0 then speed else 5

/-- The position part of the StarField vertex shader:
`pos.z += uTime * uSpeed; pos.z = mod(pos.z, 700.0) - 600.0;`
then the tunnel-avoidance shift
`if (abs(pos.x) < 20.0 && pos.y > -10.0 && pos.y < 30.0) pos.y += 50.0;`. -/
def starVertexPos (position : Vec3) (uTime uSpeed : ℚ) : Vec3 :=
  let z1 := position.z + uTime * uSpeed
  let z2 := glslMod z1 700 - 600
  let y2 :=
    if |position.x| < 20 ∧ position.y > -10 ∧ position.y < 30 then
      position.y + 50
    else
      position.y
  { x := position.x, y := y2, z := z2 }

/-! ## LaneGuides -/

/-- Lane separator X-coordinates:
`startX = -(laneCount * LANE_WIDTH) / 2; for i in 0..laneCount, push(startX + i * LANE_WIDTH)`. -/
def laneSeparators (laneCount : ℕ) (laneWidth : ℚ) : List ℚ :=
  (List.range (laneCount + 1)).map
    (fun (i : ℕ) => -((laneCount : ℚ) * laneWidth) / 2 + (i : ℚ) * laneWidth)

/-! ## RetroSun -/

/-- Sun vertical offset each tick:
`sunGroupRef.current.position.y = 30 + Math.sin(elapsedTime * 0.2) * 1.0`. -/
noncomputable def sunVerticalOffset (elapsedTime : ℝ) : ℝ :=
  30 + Real.sin (elapsedTime * 0.2) * 1.0

/-- Sun rotation each tick: `sunGroupRef.current.rotation.y = elapsedTime * 0.05`. -/
def sunRotationY (elapsedTime : ℝ) : ℝ :=
  elapsedTime * 0.05

/-! ## MovingGrid -/

/-- Effective speed used by the grid each tick: `speed > 0 ? speed : 5`. -/
def movingGridActiveSpeed (speed : ℚ) : ℚ :=
  if speed > 0 then speed else 5

/-- One MovingGrid tick. Returns the new stored offset accumulator and the
mesh z position written this tick:
`offsetRef.current += activeSpeed * delta; zPos = -100 + (offsetRef.current % 10)`. -/
def movingGridTick (speed delta offset : ℚ) : ℚ × ℚ :=
  let activeSpeed := movingGridActiveSpeed speed
  let offset2 := offset + activeSpeed * delta
  let zPos := -100 + jsMod offset2 10
  (offset2, zPos)

/-- Stored offset accumulator after a sequence of ticks, each tick given as a
`(speed, delta)` pair. -/
def movingGridOffsetAfter : List (ℚ × ℚ) → ℚ → ℚ
  | [], offset => offset
  | t :: rest, offset => movingGridOffsetAfter rest (movingGridTick t.1 t.2 offset).1

/-- Mesh z positions written by a sequence of ticks, in order. -/
def movingGridZs : List (ℚ × ℚ) → ℚ → List ℚ
  | [], _ => []
  | t :: rest, offset =>
      (movingGridTick t.1 t.2 offset).2 :: movingGridZs rest (movingGridTick t.1 t.2 offset).1

/-! ## Basic lemmas about the embedded operations -/

theorem starVertexPos_z (p : Vec3) (t s : ℚ) :
    (starVertexPos p t s).z = glslMod (p.z + t * s) 700 - 600 := rfl

theorem starVertexPos_y (p : Vec3) (t s : ℚ) :
    (starVertexPos p t s).y =
      if |p.x| < 20 ∧ p.y > -10 ∧ p.y < 30 then p.y + 50 else p.y := rfl

theorem movingGridTick_fst (s d off : ℚ) :
    (movingGridTick s d off).1 = off + movingGridActiveSpeed s * d := rfl

theorem movingGridTick_snd (s d off : ℚ) :
    (movingGridTick s d off).2 = -100 + jsMod (off + movingGridActiveSpeed s * d) 10 := rfl

theorem glslMod_nonneg (x y : ℚ) (hy : 0 < y) : 0 ≤ glslMod x y := by
  unfold glslMod
  have h : (⌊x / y⌋ : ℚ) ≤ x / y := Int.floor_le (x / y)
  have h2 : (⌊x / y⌋ : ℚ) * y ≤ x := (le_div_iff₀ hy).mp h
  linarith

theorem glslMod_lt (x y : ℚ) (hy : 0 < y) : glslMod x y < y := by
  unfold glslMod
  have h : x / y < (⌊x / y⌋ : ℚ) + 1 := Int.lt_floor_add_one (x / y)
  have h2 : x < ((⌊x / y⌋ : ℚ) + 1) * y := (div_lt_iff₀ hy).mp h
  nlinarith

theorem glslMod_add_self (x y : ℚ) (hy : y ≠ 0) : glslMod (x + y) y = glslMod x y := by
  unfold glslMod
  have h : (x + y) / y = x / y + 1 := by field_simp
  rw [h, Int.floor_add_one]
  push_cast
  ring

theorem glslMod_eq_self (x y : ℚ) (h0 : 0 ≤ x) (h1 : x < y) : glslMod x y = x := by
  unfold glslMod
  have hy : 0 < y := lt_of_le_of_lt h0 h1
  have hfl : ⌊x / y⌋ = 0 := by
    rw [Int.floor_eq_zero_iff]
    exact ⟨div_nonneg h0 hy.le, (div_lt_one hy).mpr h1⟩
  rw [hfl]
  push_cast
  ring

theorem jsMod_eq_glslMod (x y : ℚ) (hx : 0 ≤ x) (hy : 0 < y) : jsMod x y = glslMod x y := by
  unfold jsMod truncDiv glslMod
  rw [if_pos (div_nonneg hx hy.le)]

/-! ## Claim theorems -/

/-- C1: for every particle initial depth, every elapsed time `t ≥ 0` and every
effective speed `s > 0`, the recomputed depth
`z' = ((initialZ + t * s) mod 700) - 600` satisfies `-600 ≤ z' < 100`. -/
theorem star_depth_range (p : Vec3) (t s : ℚ) (ht : 0 ≤ t) (hs : 0 < s) :
    -600 ≤ (starVertexPos p t s).z ∧ (starVertexPos p t s).z < 100 := by
  rw [starVertexPos_z]
  have h1 := glslMod_nonneg (p.z + t * s) 700 (by norm_num)
  have h2 := glslMod_lt (p.z + t * s) 700 (by norm_num)
  constructor <;> linarith

/-- Witness for C1 at the particle depth `-300`, time `1`, speed `5`. -/
theorem star_depth_range_witness :
    (0 : ℚ) ≤ 1 ∧ (0 : ℚ) < 5 ∧
      (-600 ≤ (starVertexPos ⟨0, 0, -300⟩ 1 5).z ∧ (starVertexPos ⟨0, 0, -300⟩ 1 5).z < 100) :=
  ⟨by norm_num, by norm_num,
    star_depth_range ⟨0, 0, -300⟩ 1 5 (by norm_num) (by norm_num)⟩

theorem movingGridActiveSpeed_pos (s : ℚ) : 0 < movingGridActiveSpeed s := by
  unfold movingGridActiveSpeed
  split
  · assumption
  · norm_num

theorem movingGridTick_offset_le (s d off : ℚ) (hd : 0 ≤ d) :
    off ≤ (movingGridTick s d off).1 := by
  rw [movingGridTick_fst]
  have h := mul_nonneg (movingGridActiveSpeed_pos s).le hd
  linarith

theorem movingGridOffsetAfter_nonneg (ticks : List (ℚ × ℚ)) (off : ℚ)
    (hoff : 0 ≤ off) (hd : ∀ t ∈ ticks, 0 ≤ t.2) :
    0 ≤ movingGridOffsetAfter ticks off := by
  induction ticks generalizing off with
  | nil => exact hoff
  | cons t rest ih =>
      simp only [movingGridOffsetAfter]
      refine ih _ ?_ (fun u hu => hd u (List.mem_cons_of_mem _ hu))
      exact le_trans hoff (movingGridTick_offset_le t.1 t.2 off (hd t (List.mem_cons_self _ _)))

theorem movingGridZs_range (ticks : List (ℚ × ℚ)) (off : ℚ)
    (hoff : 0 ≤ off) (hd : ∀ t ∈ ticks, 0 ≤ t.2) :
    ∀ z ∈ movingGridZs ticks off, -100 ≤ z ∧ z < -90 := by
  induction ticks generalizing off with
  | nil => intro z hz; simp [movingGridZs] at hz
  | cons t rest ih =>
      intro z hz
      have hdt : 0 ≤ t.2 := hd t (List.mem_cons_self _ _)
      have hoff2 : 0 ≤ (movingGridTick t.1 t.2 off).1 :=
        le_trans hoff (movingGridTick_offset_le t.1 t.2 off hdt)
      simp only [movingGridZs, List.mem_cons] at hz
      rcases hz with hz | hz
      · subst hz
        rw [movingGridTick_snd,
          jsMod_eq_glslMod _ 10 (by rw [← movingGridTick_fst]; exact hoff2) (by norm_num)]
        have h1 := glslMod_nonneg (off + movingGridActiveSpeed t.1 * t.2) 10 (by norm_num)
        have h2 := glslMod_lt (off + movingGridActiveSpeed t.1 * t.2) 10 (by norm_num)
        constructor <;> linarith
      · exact ih _ hoff2 (fun u hu => hd u (List.mem_cons_of_mem _ hu)) z hz

/-- C2 counterexample: a single valid tick (velocity `0`, deltaTime `2`,
both admissible inputs) drives the stored accumulator from `0` to `10`,
which does not lie in `[0, 10)`. -/
theorem grid_offset_unwrapped_counterexample :
    (0 : ℚ) ≤ 2 ∧ movingGridOffsetAfter [(0, 2)] 0 = 10 ∧
      ¬ movingGridOffsetAfter [(0, 2)] 0 < 10 := by
  refine ⟨by norm_num, ?_, ?_⟩ <;>
    simp only [movingGridOffsetAfter, movingGridTick, movingGridActiveSpeed] <;> norm_num

/-- C2 amended: the stored grid accumulator is never wrapped; starting from `0`,
after any sequence of ticks with nonnegative deltas it is nonnegative (and can
reach or exceed `10`), and it is only the derived wrapped quantity
`gridOffset % 10` (used for the mesh z position) that always lies in `[0, 10)`. -/
theorem grid_offset_wrapped_view (ticks : List (ℚ × ℚ)) (hd : ∀ t ∈ ticks, 0 ≤ t.2) :
    0 ≤ movingGridOffsetAfter ticks 0 ∧
      0 ≤ jsMod (movingGridOffsetAfter ticks 0) 10 ∧
      jsMod (movingGridOffsetAfter ticks 0) 10 < 10 := by
  have hoff := movingGridOffsetAfter_nonneg ticks 0 le_rfl hd
  refine ⟨hoff, ?_, ?_⟩ <;> rw [jsMod_eq_glslMod _ 10 hoff (by norm_num)]
  · exact glslMod_nonneg _ 10 (by norm_num)
  · exact glslMod_lt _ 10 (by norm_num)

/-- Witness for the amended C2 at the one-tick sequence (velocity `0`,
deltaTime `1`). -/
theorem grid_offset_wrapped_view_witness :
    (∀ t ∈ [((0 : ℚ), (1 : ℚ))], 0 ≤ t.2) ∧
      (0 ≤ movingGridOffsetAfter [(0, 1)] 0 ∧
        0 ≤ jsMod (movingGridOffsetAfter [(0, 1)] 0) 10 ∧
        jsMod (movingGridOffsetAfter [(0, 1)] 0) 10 < 10) :=
  ⟨by norm_num, grid_offset_wrapped_view [(0, 1)] (by norm_num)⟩

/-- C3 counterexample: with velocity `5` and elapsedTime `140`, a particle with
initial depth `-300` (a depth the creation code can produce) gets the recomputed
depth `-200`, not `initialZ - 600 = -900`. -/
theorem full_cycle_counterexample :
    (starVertexPos ⟨0, 100, -300⟩ 140 (starFieldEffectiveSpeed 5)).z = -200 ∧
      ((-300 : ℚ) - 600 = -900) ∧ (-200 : ℚ) ≠ -900 := by
  refine ⟨?_, by norm_num, by norm_num⟩
  rw [starVertexPos_z]
  norm_num [starFieldEffectiveSpeed, glslMod]

/-- C3 amended: with velocity `5` and elapsedTime `140` (depthOffset `700`),
every particle's recomputed depth equals its recomputed depth at elapsedTime
`0` — the full cycle returns the particle to its relative position — and for
initial depths strictly inside `(-600, 0)` that value is `initialZ + 100`,
not `initialZ - 600`. -/
theorem full_cycle_return (p : Vec3) :
    (starVertexPos p 140 (starFieldEffectiveSpeed 5)).z =
        (starVertexPos p 0 (starFieldEffectiveSpeed 5)).z ∧
      (-600 < p.z → p.z < 0 →
        (starVertexPos p 140 (starFieldEffectiveSpeed 5)).z = p.z + 100) := by
  have hs : starFieldEffectiveSpeed 5 = 5 := by norm_num [starFieldEffectiveSpeed]
  rw [hs]
  constructor
  · rw [starVertexPos_z, starVertexPos_z]
    have h : p.z + 140 * 5 = (p.z + 0 * 5) + 700 := by ring
    rw [h, glslMod_add_self _ 700 (by norm_num)]
  · intro h1 h2
    rw [starVertexPos_z]
    have h : p.z + 140 * 5 = p.z + 700 := by ring
    rw [h, glslMod_eq_self _ 700 (by linarith) (by linarith)]
    ring

/-- Witness for the amended C3 at the particle `(0, 0, -300)`. -/
theorem full_cycle_return_witness :
    (-600 : ℚ) < -300 ∧ (-300 : ℚ) < 0 ∧
      (starVertexPos ⟨0, 0, -300⟩ 140 (starFieldEffectiveSpeed 5)).z = -300 + 100 :=
  ⟨by norm_num, by norm_num,
    (full_cycle_return ⟨0, 0, -300⟩).2 (by norm_num) (by norm_num)⟩

/-- C4: for velocity `v ≤ 0` the effective speed used by the Star Field and by
the Moving Grid equals exactly `5`; for `v > 0` it equals `v`, in both layers
independently. -/
theorem effective_speed_fallback (v : ℚ) :
    (v ≤ 0 → starFieldEffectiveSpeed v = 5 ∧ movingGridActiveSpeed v = 5) ∧
      (0 < v → starFieldEffectiveSpeed v = v ∧ movingGridActiveSpeed v = v) := by
  unfold starFieldEffectiveSpeed movingGridActiveSpeed
  constructor
  · intro h
    rw [if_neg (not_lt.mpr h)]
    exact ⟨rfl, rfl⟩
  · intro h
    rw [if_pos h]
    exact ⟨rfl, rfl⟩

/-- Witness for C4 at the velocities `-1` and `1`. -/
theorem effective_speed_fallback_witness :
    (starFieldEffectiveSpeed (-1) = 5 ∧ movingGridActiveSpeed (-1) = 5) ∧
      (starFieldEffectiveSpeed 1 = 1 ∧ movingGridActiveSpeed 1 = 1) :=
  ⟨(effective_speed_fallback (-1)).1 (by norm_num),
    (effective_speed_fallback 1).2 (by norm_num)⟩

/-- C5: for every `laneCount ≥ 1` and lane width, the separator list has
exactly `laneCount + 1` entries with `separators[i] = -(laneCount*W)/2 + i*W`,
is symmetric about `X = 0`, and `laneCount = 5`, `W = 4` yields
`[-10, -6, -2, 2, 6, 10]`. -/
theorem lane_separators_spec (n : ℕ) (W : ℚ) (hn : 1 ≤ n) :
    (laneSeparators n W).length = n + 1 ∧
      (∀ i (hi : i < (laneSeparators n W).length),
        (laneSeparators n W).get ⟨i, hi⟩ = -((n : ℚ) * W) / 2 + (i : ℚ) * W) ∧
      (∀ i (hi : i < (laneSeparators n W).length)
        (hj : n - i < (laneSeparators n W).length),
        (laneSeparators n W).get ⟨i, hi⟩ + (laneSeparators n W).get ⟨n - i, hj⟩ = 0) ∧
      laneSeparators 5 4 = [-10, -6, -2, 2, 6, 10] := by
  have hlen : (laneSeparators n W).length = n + 1 := by
    simp only [laneSeparators, List.length_map, List.length_range]
  have hget : ∀ i (hi : i < (laneSeparators n W).length),
      (laneSeparators n W).get ⟨i, hi⟩ = -((n : ℚ) * W) / 2 + (i : ℚ) * W := by
    intro i hi
    simp only [laneSeparators, List.get_eq_getElem, List.getElem_map, List.getElem_range]
  refine ⟨hlen, hget, ?_, ?_⟩
  · intro i hi hj
    rw [hget i hi, hget (n - i) hj]
    have hin : i ≤ n := by
      rw [hlen] at hi
      omega
    have hcast : ((n - i : ℕ) : ℚ) = (n : ℚ) - (i : ℚ) := by
      push_cast [Nat.cast_sub hin]
      ring
    rw [hcast]
    ring
  · norm_num [laneSeparators, List.range_succ]

/-- Witness for C5 at `laneCount = 5`, `laneWidth = 4`. -/
theorem lane_separators_spec_witness :
    (1 : ℕ) ≤ 5 ∧ laneSeparators 5 4 = [-10, -6, -2, 2, 6, 10] :=
  ⟨by norm_num, (lane_separators_spec 5 4 (by norm_num)).2.2.2⟩

/-- C6: in the star vertex shader, a particle with `|x| < 20` and
`-10 < y < 30` has its rendered y increased by exactly `50`, while a particle
with identical x and z but y outside that band keeps its y unchanged. -/
theorem tunnel_avoidance (x y yOut z t s : ℚ) :
    (|x| < 20 → -10 < y → y < 30 → (starVertexPos ⟨x, y, z⟩ t s).y = y + 50) ∧
      (¬(-10 < yOut ∧ yOut < 30) → (starVertexPos ⟨x, yOut, z⟩ t s).y = yOut) := by
  constructor
  · intro hx hy1 hy2
    rw [starVertexPos_y]
    exact if_pos ⟨hx, hy1, hy2⟩
  · intro hout
    rw [starVertexPos_y]
    refine if_neg ?_
    rintro ⟨-, h1, h2⟩
    exact hout ⟨h1, h2⟩

/-- Witness for C6: a particle at `(0, 0, -50)` is shifted to `y = 50`, one at
`(0, 100, -50)` keeps `y = 100`. -/
theorem tunnel_avoidance_witness :
    (starVertexPos ⟨0, 0, -50⟩ 1 5).y = 0 + 50 ∧
      (starVertexPos ⟨0, 100, -50⟩ 1 5).y = 100 :=
  ⟨(tunnel_avoidance 0 0 100 (-50) 1 5).1 (by norm_num) (by norm_num) (by norm_num),
    (tunnel_avoidance 0 0 100 (-50) 1 5).2 (by norm_num)⟩

/-- C7: each Moving Grid tick adds `effectiveSpeed * delta` to the stored
offset and writes the mesh depth `-100 + (offset % 10)`; from offset `0`, one
tick with velocity `0` and deltaTime `1` yields offset `5` and depth `-95`. -/
theorem grid_tick_update (v d off : ℚ) :
    (movingGridTick v d off).1 = off + movingGridActiveSpeed v * d ∧
      (movingGridTick v d off).2 = -100 + jsMod ((movingGridTick v d off).1) 10 ∧
      movingGridTick 0 1 0 = (5, -95) := by
  refine ⟨movingGridTick_fst v d off, ?_, ?_⟩
  · rw [movingGridTick_snd, movingGridTick_fst]
  · simp only [movingGridTick, movingGridActiveSpeed, jsMod, truncDiv]
    norm_num

/-- C8: the sun vertical offset each tick is `30 + sin(t * 0.2)` and the
rotation is `t * 0.05`; the offset is periodic with period `2π / 0.2` and lies
in `[29, 31]` for all `t`. -/
theorem sun_phase (t : ℝ) :
    sunVerticalOffset t = 30 + Real.sin (t * 0.2) ∧
      sunRotationY t = t * 0.05 ∧
      sunVerticalOffset (t + 2 * Real.pi / 0.2) = sunVerticalOffset t ∧
      29 ≤ sunVerticalOffset t ∧ sunVerticalOffset t ≤ 31 := by
  have hval : ∀ u : ℝ, sunVerticalOffset u = 30 + Real.sin (u * 0.2) := by
    intro u
    unfold sunVerticalOffset
    ring
  have hper : (t + 2 * Real.pi / 0.2) * 0.2 = t * 0.2 + 2 * Real.pi := by
    ring
  have h1 := Real.neg_one_le_sin (t * 0.2)
  have h2 := Real.sin_le_one (t * 0.2)
  refine ⟨hval t, rfl, ?_, ?_, ?_⟩
  · rw [hval, hval, hper, Real.sin_add_two_pi]
  · rw [hval]; linarith
  · rw [hval]; linarith

/-- C9 counterexample: the random draw `0` lies in `[0, 1)` and produces the
initial depth `Z = -0 * 600 = 0`, which is not in `[-600, 0)`. -/
theorem star_creation_counterexample :
    ((0 : ℚ) ≤ 0 ∧ (0 : ℚ) < 1) ∧
      (starInitialPosition 0.5 0.5 0).z = 0 ∧
      ¬ (starInitialPosition 0.5 0.5 0).z < 0 := by
  norm_num [starInitialPosition]

/-- C9 amended: exactly 4000 particles are produced; over all random draws in
`[0, 1)` the initial position satisfies `X ∈ [-300, 300)`, `Y ∈ [-200, 200)`
and `Z ∈ (-600, 0]`, and the jitter lies in `[0, 1)`. -/
theorem star_creation_ranges (r1 r2 r3 r4 : ℚ)
    (h1a : 0 ≤ r1) (h1b : r1 < 1) (h2a : 0 ≤ r2) (h2b : r2 < 1)
    (h3a : 0 ≤ r3) (h3b : r3 < 1) (h4a : 0 ≤ r4) (h4b : r4 < 1) :
    starCount = 4000 ∧
      (-300 ≤ (starInitialPosition r1 r2 r3).x ∧ (starInitialPosition r1 r2 r3).x < 300) ∧
      (-200 ≤ (starInitialPosition r1 r2 r3).y ∧ (starInitialPosition r1 r2 r3).y < 200) ∧
      (-600 < (starInitialPosition r1 r2 r3).z ∧ (starInitialPosition r1 r2 r3).z ≤ 0) ∧
      (0 ≤ starJitter r4 ∧ starJitter r4 < 1) := by
  simp only [starInitialPosition, starJitter, starCount]
  refine ⟨trivial, ⟨?_, ?_⟩, ⟨?_, ?_⟩, ⟨?_, ?_⟩, h4a, h4b⟩ <;> nlinarith

/-- Witness for the amended C9 at the draws `(0, 0, 1/2, 0)`. -/
theorem star_creation_ranges_witness :
    ((0 : ℚ) ≤ 0 ∧ (0 : ℚ) < 1 ∧ (0 : ℚ) ≤ 1 / 2 ∧ (1 / 2 : ℚ) < 1) ∧
      (starCount = 4000 ∧
        (-300 ≤ (starInitialPosition 0 0 (1 / 2)).x ∧ (starInitialPosition 0 0 (1 / 2)).x < 300) ∧
        (-200 ≤ (starInitialPosition 0 0 (1 / 2)).y ∧ (starInitialPosition 0 0 (1 / 2)).y < 200) ∧
        (-600 < (starInitialPosition 0 0 (1 / 2)).z ∧ (starInitialPosition 0 0 (1 / 2)).z ≤ 0) ∧
        (0 ≤ starJitter 0 ∧ starJitter 0 < 1)) :=
  ⟨⟨by norm_num, by norm_num, by norm_num, by norm_num⟩,
    star_creation_ranges 0 0 (1 / 2) 0 (by norm_num) (by norm_num) (by norm_num)
      (by norm_num) (by norm_num) (by norm_num) (by norm_num) (by norm_num)⟩

/-- C10: starting from offset `0`, for every tick sequence with nonnegative
deltas the mesh z position written each tick lies in `[-100, -90)`; the stored
accumulator is never decreased by a tick with nonnegative delta, the effective
speed is always strictly positive, and the accumulator is unbounded over tick
sequences. -/
theorem grid_z_position_invariant (ticks : List (ℚ × ℚ)) (hd : ∀ t ∈ ticks, 0 ≤ t.2) :
    (∀ z ∈ movingGridZs ticks 0, -100 ≤ z ∧ z < -90) ∧
      (∀ s d off : ℚ, 0 ≤ d → off ≤ (movingGridTick s d off).1) ∧
      (∀ s : ℚ, 0 < movingGridActiveSpeed s) ∧
      (∀ B : ℚ, ∃ ts : List (ℚ × ℚ), (∀ t ∈ ts, 0 ≤ t.2) ∧ B < movingGridOffsetAfter ts 0) := by
  refine ⟨movingGridZs_range ticks 0 le_rfl hd, movingGridTick_offset_le,
    movingGridActiveSpeed_pos, ?_⟩
  intro B
  refine ⟨[(1, |B| + 1)], ?_, ?_⟩
  · intro t ht
    simp only [List.mem_singleton] at ht
    subst ht
    have := abs_nonneg B
    simp only
    linarith
  · simp only [movingGridOffsetAfter, movingGridTick_fst, movingGridActiveSpeed]
    rw [if_pos (by norm_num : (0 : ℚ) < 1)]
    have := le_abs_self B
    linarith

/-- Witness for C10 at the one-tick sequence (velocity `3`, deltaTime `2`). -/
theorem grid_z_position_invariant_witness :
    (∀ t ∈ [((3 : ℚ), (2 : ℚ))], 0 ≤ t.2) ∧
      (∀ z ∈ movingGridZs [(3, 2)] 0, -100 ≤ z ∧ z < -90) :=
  ⟨by norm_num, (grid_z_position_invariant [(3, 2)] (by norm_num)).1⟩

end Environment
